import Mathlib

/-!
Verification of the conversation/session-management logic of the
`cli_llm_chat` command-line chat client.

The development shallowly embeds the Python sources:

* `src/cli_llm_chat/config/settings.py` — config and conversation stores,
  modelled as association lists standing for the JSON files on disk;
* `src/cli_llm_chat/api/openrouter.py` — the `OpenRouterClient` request
  preconditions and HTTP-response handling;
* `src/cli_llm_chat/main.py` — the interactive session loop of `chat`
  (lines 175-286), modelled as a step function on an explicit session
  state, with the outcome of the one possible gateway call per cycle
  supplied as a parameter.

Python dictionaries are embedded as association lists with
replace-or-append update (`dictSet`) and first-match lookup (`dictGet`);
since updates keep keys unique, this coincides with Python dict
semantics.  Uncaught Python exceptions are modelled as an explicit
`crash` outcome of the step function.
-/

set_option maxRecDepth 8192

namespace CliLlmChat

/-- A chat message, `{"role": ..., "content": ...}` as used throughout
`main.py`.  Content is modelled as a string (the only values the session
loop itself ever appends). -/
structure Message where
  role : String
  content : String
deriving DecidableEq, Repr

/-- First-match lookup in an association list; embeds Python `d[k]` /
`d.get(k)` on string-keyed dicts. -/
def dictGet {β : Type} (k : String) : List (String × β) → Option β
  | [] => none
  | (k2, v) :: rest => if k2 = k then some v else dictGet k rest

/-- Replace-or-append update of an association list; embeds Python
`d[k] = v`. -/
def dictSet {β : Type} (k : String) (v : β) : List (String × β) → List (String × β)
  | [] => [(k, v)]
  | (k2, v2) :: rest => if k2 = k then (k, v) :: rest else (k2, v2) :: dictSet k v rest

/-! ## Conversation Store (`settings.py`, lines 107-174)

The `conversations` directory is modelled as an association list from
conversation name to message list, standing for the collection of
`<name>.json` files.  `save_conversation` overwrites wholesale;
`load_conversation` returns `[]` when no file exists; `list_conversations`
enumerates the stored names. -/

/-- The collection of persisted conversation files. -/
abbrev ConvStore := List (String × List Message)

/-- `save_conversation` (settings.py lines 119-134): serialize `messages`
to the file keyed by `conversation_id`, overwrite semantics. -/
def save_conversation (conversation_id : String) (messages : List Message)
    (store : ConvStore) : ConvStore :=
  dictSet conversation_id messages store

/-- `load_conversation` (settings.py lines 137-158): return the stored
list, or `[]` when no file exists for the name. -/
def load_conversation (conversation_id : String) (store : ConvStore) : List Message :=
  (dictGet conversation_id store).getD []

/-- `list_conversations` (settings.py lines 161-173): the stems of the
stored `*.json` files, i.e. the stored names. -/
def list_conversations (store : ConvStore) : List String :=
  store.map Prod.fst

/-! ## JSON values

A small model of the JSON values flowing through `requests` responses. -/

/-- JSON values, as returned by `response.json()`. -/
inductive Json where
  | null
  | bool (b : Bool)
  | num (n : Int)
  | str (s : String)
  | arr (elems : List Json)
  | obj (fields : List (String × Json))

/-- Python `str()` applied to a decoded JSON value, as used by the
f-strings in `openrouter.py`.  Rendering of composite values is
abbreviated (no claim exercises it); strings render as themselves, which
is what the provider error envelopes use. -/
def pyStr : Json → String
  | .str s => s
  | .num n => toString n
  | .bool true => "True"
  | .bool false => "False"
  | .null => "None"
  | .arr _ => "[...]"
  | .obj _ => "\x7b...\x7d"

/-! ## String helpers

Python string methods are embedded via the character list underlying a
Lean string, which matches Python's character-based (not byte-based)
semantics and keeps every definition kernel-reducible. -/

/-- Python `str.lower()` (ASCII; all command tokens are ASCII). -/
def strLower (s : String) : String :=
  String.mk (s.data.map Char.toLower)

/-- Python `str.startswith(pre)`. -/
def strStartsWith (s pre : String) : Bool :=
  pre.data.isPrefixOf s.data

/-- Python slicing `s[n:]` (character-based). -/
def strDrop (s : String) (n : Nat) : String :=
  String.mk (s.data.drop n)

/-- Python `str.strip()`: remove leading and trailing whitespace. -/
def strTrim (s : String) : String :=
  String.mk (((s.data.dropWhile Char.isWhitespace).reverse.dropWhile Char.isWhitespace).reverse)

/-! ## Session Controller (`main.py`, `chat`, lines 69-286)

The interactive loop is embedded as a step function: one input line in,
one `StepResult` out.  The outcome of the (at most one) gateway call of
the cycle is a parameter.  The three verbosity levels are the keys of the
system-message lookup tables at lines 125-129 and 224-228. -/

/-- The three verbosity levels of the system-message lookup table. -/
inductive Verbosity where
  | short
  | medium
  | long
deriving DecidableEq, Repr

/-- The fixed system-message lookup table (main.py lines 125-129 and
224-228; both literals are identical). -/
def systemMessageText : Verbosity → String
  | .short => "You are a helpful AI assistant. IMPORTANT: Always provide concise responses of 1-5 lines maximum. Keep explanations minimal and focused."
  | .medium => "You are a helpful AI assistant. IMPORTANT: Provide balanced responses between 5-15 lines. Include key details and brief examples while maintaining clarity."
  | .long => "You are a helpful AI assistant. IMPORTANT: Provide comprehensive responses with detailed explanations, relevant examples, and thorough context. Focus on depth and completeness."

/-- The system message injected for a verbosity level. -/
def seedMessage (v : Verbosity) : Message :=
  ⟨"system", systemMessageText v⟩

/-- The membership test `new_verbosity in ["short", "medium", "long"]`
(main.py line 220), returning the recognized level. -/
def parseVerbosityLevel (s : String) : Option Verbosity :=
  if s = "short" then some .short
  else if s = "medium" then some .medium
  else if s = "long" then some .long
  else none

/-- In-memory session state of the interactive loop: the active
conversation name, the process-wide `conversation_history` dict, the
persisted conversation files, and the current `config["verbosity"]`. -/
structure SessionState where
  conversation : String
  convMap : List (String × List Message)
  store : ConvStore
  verbosity : Verbosity
deriving DecidableEq, Repr

/-- Outcome of one cycle of the `while True:` loop: continue to the next
prompt, break out (`/exit`), or terminate with an uncaught Python
exception (the carried state is the state at the moment the exception is
raised). -/
inductive StepResult where
  | next (s : SessionState)
  | exitLoop (s : SessionState)
  | crash (err : String) (s : SessionState)
deriving DecidableEq, Repr

/-- The session state carried by a step result. -/
def StepResult.state : StepResult → SessionState
  | .next s => s
  | .exitLoop s => s
  | .crash _ s => s

/-- Whether the step ended in an uncaught exception. -/
def StepResult.isCrash : StepResult → Bool
  | .crash _ _ => true
  | _ => false

/-- Result of the `client.chat_completion` call made during an ordinary
message turn: either the decoded response dict, or a raised exception
(gateway error, network error, or precondition `ValueError`). -/
inductive GatewayOutcome where
  | ok (resp : Json)
  | fail (errMsg : String)

/-- `response.get("choices", [{}])[0].get("message", {}).get("content", "")`
(main.py line 272).  `none` models an exception escaping this expression
(e.g. `IndexError` on an empty `choices` list), which the surrounding
`except` catches.  Non-string `content` values, which Python would pass
through as-is, are approximated by the same exception path; no reachable
provider response produces them in the claims under study. -/
def extractContent (resp : Json) : Option String :=
  match resp with
  | .obj fields =>
    match dictGet "choices" fields with
    | none => some ""
    | some (.arr []) => none
    | some (.arr (c :: _)) =>
      match c with
      | .obj cf =>
        match dictGet "message" cf with
        | none => some ""
        | some (.obj mf) =>
          match dictGet "content" mf with
          | none => some ""
          | some (.str s) => some s
          | some _ => none
        | some _ => none
      | _ => none
    | some _ => none
  | _ => none

/-- The string-prefix dispatch chain of the loop (main.py lines 182-256):
true iff the input line is recognized as one of the slash-commands, false
iff the line falls through to the ordinary message turn. -/
def isCommandInput (inp : String) : Bool :=
  let low := strLower inp
  (low == "/exit") || (low == "/clear") || (low == "/help") ||
  strStartsWith low "/save " ||
  (strStartsWith low "/verbosity " || (low == "/vs") || (low == "/vm") || (low == "/vl")) ||
  (low == "/list") || strStartsWith low "/load "

/-- The ordinary message turn (main.py lines 258-286): append the user
message (`KeyError` if the active name is missing from
`conversation_history`), call the gateway with the full history, and on
success append the assistant reply and persist; any exception from the
call or the reply extraction is caught and the loop continues. -/
def messageTurn (gw : GatewayOutcome) (inp : String) (s : SessionState) : StepResult :=
  match dictGet s.conversation s.convMap with
  | none => .crash "KeyError" s
  | some msgs =>
    let msgs1 := msgs ++ [Message.mk "user" inp]
    let s1 : SessionState := { s with convMap := dictSet s.conversation msgs1 s.convMap }
    match gw with
    | .fail _ => .next s1
    | .ok resp =>
      match extractContent resp with
      | none => .next s1
      | some a =>
        let msgs2 := msgs1 ++ [Message.mk "assistant" a]
        .next { s1 with convMap := dictSet s.conversation msgs2 s1.convMap,
                        store := dictSet s.conversation msgs2 s1.store }

/-- The effect of a recognized verbosity change (main.py lines 220-231):
`config["verbosity"]` is updated first, then the message at index 0 is
replaced in place; on an absent conversation or an empty history the
subscript raises (`KeyError` / `IndexError`) with the verbosity already
changed. -/
def applyVerbosity (lvl : Verbosity) (s : SessionState) : StepResult :=
  match dictGet s.conversation s.convMap with
  | none => .crash "KeyError" { s with verbosity := lvl }
  | some [] => .crash "IndexError" { s with verbosity := lvl }
  | some (_ :: rest) =>
    .next { s with verbosity := lvl,
                   convMap := dictSet s.conversation (seedMessage lvl :: rest) s.convMap }

/-- One cycle of the interactive loop of `chat` (main.py lines 175-286):
dispatch on the input line exactly as the `elif` chain does, then either
handle a slash-command locally or run the message turn. -/
def sessionStep (gw : GatewayOutcome) (inp : String) (s : SessionState) : StepResult :=
  let low := strLower inp
  if low == "/exit" then
    .exitLoop s
  else if low == "/clear" then
    .next { s with convMap := dictSet s.conversation [] s.convMap }
  else if low == "/help" then
    .next s
  else if strStartsWith low "/save " then
    let new_name := strTrim (strDrop inp 6)
    if new_name ≠ "" then
      match dictGet s.conversation s.convMap with
      | none => .crash "KeyError" s
      | some msgs =>
        .next { s with store := save_conversation new_name msgs s.store,
                       conversation := new_name }
    else
      .next s
  else if strStartsWith low "/verbosity " || (low == "/vs") || (low == "/vm") || (low == "/vl") then
    let nv := if low == "/vs" then "short"
      else if low == "/vm" then "medium"
      else if low == "/vl" then "long"
      else strLower (strTrim (strDrop inp 10))
    match parseVerbosityLevel nv with
    | some lvl => applyVerbosity lvl s
    | none => .next s
  else if low == "/list" then
    .next s
  else if strStartsWith low "/load " then
    let conv_name := strTrim (strDrop inp 6)
    if conv_name ≠ "" then
      let loaded := load_conversation conv_name s.store
      if loaded ≠ [] then
        .next { s with conversation := conv_name,
                       convMap := dictSet conv_name loaded s.convMap }
      else
        .next s
    else
      .next s
  else
    messageTurn gw inp s

/-- Entering a conversation at the start of `chat` (main.py lines
106-133) in a fresh process (empty global `conversation_history`): load
the persisted copy if one exists, otherwise start empty; then seed with
the system message when the history is empty. -/
def startConversation (v : Verbosity) (name : String) (store : ConvStore) : SessionState :=
  let loaded := load_conversation name store
  let msgs0 := if loaded ≠ [] then loaded else ([] : List Message)
  let msgs := if msgs0 = [] then [seedMessage v] else msgs0
  { conversation := name, convMap := [(name, msgs)], store := store, verbosity := v }

/-- Run the loop over a script of input lines paired with the gateway
outcome each would observe, stopping at `/exit` or at an uncaught
exception; returns the final session state. -/
def runScript : List (String × GatewayOutcome) → SessionState → SessionState
  | [], s => s
  | (inp, gw) :: rest, s =>
    match sessionStep gw inp s with
    | .next s2 => runScript rest s2
    | .exitLoop s2 => s2
    | .crash _ s2 => s2

/-- The canonical `/verbosity <level>` command line for a level. -/
def verbosityCommand : Verbosity → String
  | .short => "/verbosity short"
  | .medium => "/verbosity medium"
  | .long => "/verbosity long"

/-! ## Chat API Gateway (`api/openrouter.py`, `OpenRouterClient`)

`chat_completion` is split into the part before the HTTP request
(precondition checks and payload construction, lines 56-72) and the
handling of the HTTP response (lines 88-109).  The response is a status
code, the raw body text, and the result of `response.json()` (`none`
models a parse failure). -/

/-- Python substring containment `needle in hay` on strings. -/
def containsSub (needle hay : String) : Bool :=
  (List.range (hay.data.length + 1)).any (fun i => needle.data.isPrefixOf (hay.data.drop i))

/-- Python `s in l` for a decoded JSON array: equality against each
element (only string elements can equal a string). -/
def jsonArrHasStr (s : String) : List Json → Bool
  | [] => false
  | .str t :: rest => t == s || jsonArrHasStr s rest
  | _ :: rest => jsonArrHasStr s rest

/-- The body of the `try:` block at openrouter.py lines 90-97 applied to
the decoded error body: `some msg` when the block completes leaving
`error_msg = msg`, `none` when an exception is raised inside it (bad
subscript on the `error` value, or `in` applied to a non-container),
which sends control to the bare `except:` fallback at line 98. -/
def tryErrorMsg (status : Nat) (data : Json) : Option String :=
  match data with
  | .obj fields =>
    match dictGet "error" fields with
    | some (.obj ef) =>
      match dictGet "message" ef with
      | some j => some ("API Error: " ++ pyStr j)
      | none => none
    | some _ => none
    | none =>
      match dictGet "message" fields with
      | some j => some ("API Error: " ++ pyStr j)
      | none => some ("API Error: " ++ toString status)
  | .str s =>
    if containsSub "error" s then none
    else if containsSub "message" s then none
    else some ("API Error: " ++ toString status)
  | .arr elems =>
    if jsonArrHasStr "error" elems then none
    else if jsonArrHasStr "message" elems then none
    else some ("API Error: " ++ toString status)
  | _ => none

/-- Handling of the HTTP response inside `chat_completion` (openrouter.py
lines 88-109): status 200 returns the decoded body (an unparsable 200
body raises `requests.JSONDecodeError`, a `RequestException`, hence the
`Network error` wrapper); any other status raises `Exception(error_msg)`
with `error_msg` built by the fallback chain. -/
def chat_completion_response (status : Nat) (text : String) (parsed : Option Json) :
    Except String Json :=
  if status ≠ 200 then
    let base := "API Error: " ++ toString status
    let msg :=
      match parsed with
      | some data =>
        match tryErrorMsg status data with
        | some m => m
        | none => if text ≠ "" then "API Error: " ++ text else base
      | none => if text ≠ "" then "API Error: " ++ text else base
    Except.error msg
  else
    match parsed with
    | some j => Except.ok j
    | none => Except.error "Network error: response body is not valid JSON"

/-- The JSON request body `{model, messages, temperature, max_tokens}`
built at openrouter.py lines 67-72. -/
structure Payload where
  model : String
  messages : List Message
  temperature : Rat
  max_tokens : Int
deriving DecidableEq, Repr

/-- What `chat_completion` does before any network traffic: either a
`ValueError` is raised by a precondition check, or an HTTP POST is issued
with the constructed payload. -/
inductive RequestStart where
  | valueError (msg : String)
  | httpRequest (payload : Payload)
deriving DecidableEq, Repr

/-- The precondition checks and payload construction of `chat_completion`
(openrouter.py lines 56-72).  `model` is `Optional[str]`; Python
truthiness makes both `None` and `""` fail the `not model` check. -/
def chat_completion_request (api_key : String) (model : Option String)
    (messages : List Message) (temperature : Rat) (max_tokens : Int) : RequestStart :=
  if api_key = "" then
    .valueError "API key not set. Please set your API key using the config-set command."
  else if model.getD "" = "" then
    .valueError "Model ID not specified. Please provide a valid model ID."
  else if messages = [] then
    .valueError "No messages provided. Please provide at least one message."
  else
    .httpRequest ⟨model.getD "", messages, temperature, max_tokens⟩

/-- The `OpenRouterClient` constructor check (openrouter.py lines 16-26):
rejects falsy and placeholder keys, otherwise stores the key. -/
def openRouterClientInit (api_key : String) : Except String String :=
  if api_key = "" ∨ api_key = "your_api_key_here" ∨ api_key = "sk-or-v1-your-api-key-here" then
    Except.error "Invalid API key. Please set a valid OpenRouter API key."
  else
    Except.ok api_key

/-! ## Config Store (`settings.py`, lines 44-104)

The configuration is a Python dict with JSON values.  `load_config`
starts from `DEFAULT_CONFIG`, overlays the truthy environment variables,
and finally `dict.update`s the parsed config file when it exists and
parses; a missing or unparsable file leaves the pre-file merge intact. -/

/-- A configuration dict. -/
abbrev ConfigDict := List (String × Json)

/-- `DEFAULT_CONFIG` (settings.py lines 44-48). -/
def DEFAULT_CONFIG : ConfigDict :=
  [("response_verbosity", Json.str "brief"),
   ("api_key", Json.null),
   ("default_model", Json.str "google/gemini-2.0-flash-001")]

/-- The environment variables read by `load_config` (settings.py lines
64-66); `none` models an unset variable. -/
structure EnvVars where
  api_key : Option String
  default_model : Option String
  response_verbosity : Option String

/-- Python truthiness of `os.environ.get(...)`: set and non-empty. -/
def pyTruthy : Option String → Bool
  | none => false
  | some s => !(s == "")

/-- State of the persisted config file as `load_config` sees it. -/
inductive FileState where
  | missing
  | unparsable
  | parsed (kvs : ConfigDict)

/-- Python `dict.update`: apply every key/value pair of `kvs` in order. -/
def dictUpdate (c kvs : ConfigDict) : ConfigDict :=
  kvs.foldl (fun acc p => dictSet p.1 p.2 acc) c

/-- Defaults overlaid with the truthy environment variables (settings.py
lines 58-75), the state of `config` just before the file is consulted. -/
def envMerged (env : EnvVars) : ConfigDict :=
  let c := DEFAULT_CONFIG
  let c := match env.api_key with
    | some s => if s ≠ "" then dictSet "api_key" (Json.str s) c else c
    | none => c
  let c := match env.default_model with
    | some s => if s ≠ "" then dictSet "default_model" (Json.str s) c else c
    | none => c
  match env.response_verbosity with
  | some s => if s ≠ "" then dictSet "response_verbosity" (Json.str s) c else c
  | none => c

/-- `load_config` (settings.py lines 51-88): defaults, then environment
overrides, then the persisted file via `dict.update`; on a missing or
unparsable file the pre-file merge is returned (the parse error is only
printed). -/
def load_config (env : EnvVars) (file : FileState) : ConfigDict :=
  let c := envMerged env
  match file with
  | .parsed kvs => dictUpdate c kvs
  | _ => c


/-! ## Invariants and concrete fixtures -/

/-- The spec's conversation invariant applied to one message list: if
non-empty, element 0 is a `system` message. -/
def headIsSystem : List Message → Bool
  | [] => true
  | m :: _ => m.role == "system"

/-- The spec's conversation invariant over every conversation held in the
in-memory map. -/
def allHeadsSystem (s : SessionState) : Bool :=
  s.convMap.all fun p => headIsSystem p.2

/-- A well-formed history: non-empty with a `system` message at index 0. -/
def goodHist : List Message → Bool
  | [] => false
  | m :: _ => m.role == "system"

/-- Inductive strengthening of the conversation invariant: every
in-memory history and every persisted history is non-empty and headed by
a `system` message. -/
def strongInv (s : SessionState) : Bool :=
  (s.convMap.all fun p => goodHist p.2) && (s.store.all fun p => goodHist p.2)

/-- The simulated gateway success body
`{"choices":[{"message":{"content":"Hello!"}}]}` of the spec's happy-path
test. -/
def helloResponse : Json :=
  .obj [("choices", .arr [.obj [("message", .obj [("content", .str "Hello!")])]])]

/-- A gateway failure, e.g. the raised `Exception("API Error: bad key")`. -/
def gatewayFailure : GatewayOutcome := .fail "API Error: bad key"

/-! ## Association-list lemmas -/

theorem dictGet_dictSet_same {β : Type} (k : String) (v : β) (m : List (String × β)) :
    dictGet k (dictSet k v m) = some v := by
  induction m with
  | nil => simp [dictGet, dictSet]
  | cons p rest ih =>
    obtain ⟨k2, v2⟩ := p
    by_cases h : k2 = k
    · simp [dictGet, dictSet, h]
    · simp [dictGet, dictSet, h, ih]

theorem dictGet_dictSet_other {β : Type} (k k2 : String) (v : β) (m : List (String × β))
    (h : k2 ≠ k) : dictGet k2 (dictSet k v m) = dictGet k2 m := by
  induction m with
  | nil => simp [dictGet, dictSet, Ne.symm h]
  | cons p rest ih =>
    obtain ⟨k3, v3⟩ := p
    by_cases h3 : k3 = k
    · subst h3
      simp [dictGet, dictSet, Ne.symm h]
    · by_cases h2 : k3 = k2
      · subst h2
        simp [dictGet, dictSet, h3]
      · simp [dictGet, dictSet, h3, h2, ih]

theorem dictSet_dictSet_same {β : Type} (k : String) (v v2 : β) (m : List (String × β)) :
    dictSet k v2 (dictSet k v m) = dictSet k v2 m := by
  induction m with
  | nil => simp [dictSet]
  | cons p rest ih =>
    obtain ⟨k3, v3⟩ := p
    by_cases h : k3 = k
    · simp [dictSet, h]
    · simp [dictSet, h, ih]

theorem mem_fst_dictSet {β : Type} (k : String) (v : β) (m : List (String × β)) :
    k ∈ (dictSet k v m).map Prod.fst := by
  induction m with
  | nil => simp [dictSet]
  | cons q rest ih =>
    obtain ⟨k2, v2⟩ := q
    by_cases h : k2 = k
    · simp [dictSet, h]
    · simp [dictSet, h]
      right
      simpa using ih



/-! ## Invariant-preservation lemmas -/

theorem all_dictSet_snd {β : Type} (p : β → Bool) (k : String) (v : β)
    (m : List (String × β)) (hm : (m.all fun q => p q.2) = true) (hv : p v = true) :
    ((dictSet k v m).all fun q => p q.2) = true := by
  induction m with
  | nil => simp [dictSet, hv]
  | cons q rest ih =>
    obtain ⟨k2, v2⟩ := q
    simp only [List.all_cons, Bool.and_eq_true] at hm
    by_cases h : k2 = k
    · simp [dictSet, h, hv, hm.2]
    · simp [dictSet, h, hm.1, ih hm.2]

theorem dictGet_all_snd {β : Type} (p : β → Bool) (k : String) (v : β)
    (m : List (String × β)) (hm : (m.all fun q => p q.2) = true) (hk : dictGet k m = some v) :
    p v = true := by
  induction m with
  | nil => simp [dictGet] at hk
  | cons q rest ih =>
    obtain ⟨k2, v2⟩ := q
    simp only [List.all_cons, Bool.and_eq_true] at hm
    by_cases h : k2 = k
    · subst h
      simp [dictGet] at hk
      subst hk
      exact hm.1
    · simp [dictGet, h] at hk
      exact ih hm.2 hk

theorem goodHist_append (msgs l : List Message) (h : goodHist msgs = true) :
    goodHist (msgs ++ l) = true := by
  cases msgs with
  | nil => simp [goodHist] at h
  | cons m t => simpa [goodHist] using h

theorem goodHist_seed (lvl : Verbosity) (rest : List Message) :
    goodHist (seedMessage lvl :: rest) = true := rfl

theorem goodHist_load (store : ConvStore) (name : String)
    (hstore : (store.all fun p => goodHist p.2) = true)
    (hne : load_conversation name store ≠ []) :
    goodHist (load_conversation name store) = true := by
  unfold load_conversation at *
  cases hd : dictGet name store with
  | none => simp [hd] at hne
  | some v => exact dictGet_all_snd _ name v store hstore hd

theorem strongInv_messageTurn (gw : GatewayOutcome) (inp : String) (s : SessionState)
    (hconv : (s.convMap.all fun p => goodHist p.2) = true)
    (hstore : (s.store.all fun p => goodHist p.2) = true) :
    strongInv (messageTurn gw inp s).state = true := by
  unfold messageTurn
  cases hd : dictGet s.conversation s.convMap with
  | none =>
    simp only [StepResult.state, strongInv, Bool.and_eq_true]
    exact ⟨hconv, hstore⟩
  | some msgs =>
    have hg := dictGet_all_snd _ _ _ _ hconv hd
    cases gw with
    | fail e =>
      simp only [StepResult.state, strongInv, Bool.and_eq_true]
      exact ⟨all_dictSet_snd _ _ _ _ hconv (goodHist_append _ _ hg), hstore⟩
    | ok resp =>
      cases hx : extractContent resp with
      | none =>
        simp only [hx, StepResult.state, strongInv, Bool.and_eq_true]
        exact ⟨all_dictSet_snd _ _ _ _ hconv (goodHist_append _ _ hg), hstore⟩
      | some a =>
        simp only [hx, StepResult.state, strongInv, Bool.and_eq_true]
        exact ⟨all_dictSet_snd _ _ _ _
            (all_dictSet_snd _ _ _ _ hconv (goodHist_append _ _ hg))
            (goodHist_append _ _ (goodHist_append _ _ hg)),
          all_dictSet_snd _ _ _ _ hstore (goodHist_append _ _ (goodHist_append _ _ hg))⟩

theorem strongInv_applyVerbosity (lvl : Verbosity) (s : SessionState)
    (hconv : (s.convMap.all fun p => goodHist p.2) = true)
    (hstore : (s.store.all fun p => goodHist p.2) = true) :
    strongInv (applyVerbosity lvl s).state = true := by
  unfold applyVerbosity
  cases hd : dictGet s.conversation s.convMap with
  | none =>
    simp only [hd, StepResult.state, strongInv, Bool.and_eq_true]
    exact ⟨hconv, hstore⟩
  | some msgs =>
    cases msgs with
    | nil =>
      simp only [hd, StepResult.state, strongInv, Bool.and_eq_true]
      exact ⟨hconv, hstore⟩
    | cons m rest =>
      simp only [hd, StepResult.state, strongInv, Bool.and_eq_true]
      exact ⟨all_dictSet_snd _ _ _ _ hconv (goodHist_seed _ _), hstore⟩

theorem strongInv_sessionStep (gw : GatewayOutcome) (inp : String) (s : SessionState)
    (hinv : strongInv s = true) (hclear : strLower inp ≠ "/clear") :
    strongInv (sessionStep gw inp s).state = true := by
  rw [strongInv, Bool.and_eq_true] at hinv
  obtain ⟨hconv, hstore⟩ := hinv
  simp only [sessionStep]
  split
  · simp only [StepResult.state, strongInv, Bool.and_eq_true]
    exact ⟨hconv, hstore⟩
  split
  · rename_i h2
    exact absurd (eq_of_beq h2) hclear
  split
  · simp only [StepResult.state, strongInv, Bool.and_eq_true]
    exact ⟨hconv, hstore⟩
  split
  · split
    · split
      · simp only [StepResult.state, strongInv, Bool.and_eq_true]
        exact ⟨hconv, hstore⟩
      · rename_i msgs hmsgs
        simp only [StepResult.state, strongInv, save_conversation, Bool.and_eq_true]
        exact ⟨hconv, all_dictSet_snd _ _ _ _ hstore (dictGet_all_snd _ _ _ _ hconv hmsgs)⟩
    · simp only [StepResult.state, strongInv, Bool.and_eq_true]
      exact ⟨hconv, hstore⟩
  split
  · split
    · exact strongInv_applyVerbosity _ s hconv hstore
    · simp only [StepResult.state, strongInv, Bool.and_eq_true]
      exact ⟨hconv, hstore⟩
  split
  · simp only [StepResult.state, strongInv, Bool.and_eq_true]
    exact ⟨hconv, hstore⟩
  split
  · split
    · split
      · rename_i hne2
        simp only [StepResult.state, strongInv, Bool.and_eq_true]
        exact ⟨all_dictSet_snd _ _ _ _ hconv (goodHist_load _ _ hstore hne2), hstore⟩
      · simp only [StepResult.state, strongInv, Bool.and_eq_true]
        exact ⟨hconv, hstore⟩
    · simp only [StepResult.state, strongInv, Bool.and_eq_true]
      exact ⟨hconv, hstore⟩
  exact strongInv_messageTurn gw inp s hconv hstore

theorem strongInv_runScript (script : List (String × GatewayOutcome)) (s : SessionState)
    (hinv : strongInv s = true)
    (hclear : ∀ p ∈ script, strLower p.1 ≠ "/clear") :
    strongInv (runScript script s) = true := by
  induction script generalizing s with
  | nil => simpa [runScript] using hinv
  | cons p rest ih =>
    obtain ⟨inp, gw⟩ := p
    have h1 := strongInv_sessionStep gw inp s hinv (hclear (inp, gw) (by simp))
    simp only [runScript]
    cases hstep : sessionStep gw inp s with
    | next s2 =>
      rw [hstep] at h1
      exact ih s2 h1 (fun q hq => hclear q (by simp [hq]))
    | exitLoop s2 =>
      rw [hstep] at h1
      exact h1
    | crash e s2 =>
      rw [hstep] at h1
      exact h1

theorem strongInv_startConversation (v : Verbosity) (name : String) (store : ConvStore)
    (hstore : (store.all fun p => goodHist p.2) = true) :
    strongInv (startConversation v name store) = true := by
  cases hl : load_conversation name store with
  | nil =>
    unfold startConversation strongInv
    rw [Bool.and_eq_true]
    refine ⟨?_, hstore⟩
    simp [hl, goodHist, seedMessage]
  | cons m t =>
    have hg : goodHist (m :: t) = true := by
      rw [← hl]
      exact goodHist_load store name hstore (by rw [hl]; simp)
    unfold startConversation strongInv
    rw [Bool.and_eq_true]
    refine ⟨?_, hstore⟩
    simpa [hl] using hg

theorem allHeadsSystem_of_strongInv (s : SessionState) (h : strongInv s = true) :
    allHeadsSystem s = true := by
  rw [strongInv, Bool.and_eq_true] at h
  rw [allHeadsSystem]
  simp only [List.all_eq_true] at h ⊢
  intro p hp
  have hq := h.1 p hp
  cases hc : p.2 with
  | nil => simp [headIsSystem]
  | cons m t =>
    rw [hc] at hq
    simpa [headIsSystem, goodHist] using hq

/-! ## Config-merge lemmas -/

theorem dictGet_eq_none_of_not_mem {β : Type} (k : String) (m : List (String × β))
    (h : k ∉ m.map Prod.fst) : dictGet k m = none := by
  induction m with
  | nil => rfl
  | cons p rest ih =>
    simp only [List.map_cons, List.mem_cons] at h
    push_neg at h
    rw [show dictGet k (p :: rest) = if p.1 = k then some p.2 else dictGet k rest from rfl]
    rw [if_neg (fun hk => h.1 hk.symm)]
    exact ih h.2

theorem dictGet_dictUpdate_of_none (k : String) (c kvs : ConfigDict)
    (h : dictGet k kvs = none) : dictGet k (dictUpdate c kvs) = dictGet k c := by
  induction kvs generalizing c with
  | nil => rfl
  | cons p rest ih =>
    obtain ⟨k2, v2⟩ := p
    simp only [dictGet] at h
    by_cases hk : k2 = k
    · simp [hk] at h
    · rw [if_neg hk] at h
      show dictGet k (dictUpdate (dictSet k2 v2 c) rest) = dictGet k c
      rw [ih (dictSet k2 v2 c) h]
      exact dictGet_dictSet_other k2 k v2 c (fun hq => hk (hq.symm ▸ rfl))
  
theorem dictGet_dictUpdate_of_some (k : String) (v : Json) (c kvs : ConfigDict)
    (hnd : (kvs.map Prod.fst).Nodup) (h : dictGet k kvs = some v) :
    dictGet k (dictUpdate c kvs) = some v := by
  induction kvs generalizing c with
  | nil => simp [dictGet] at h
  | cons p rest ih =>
    obtain ⟨k2, v2⟩ := p
    simp only [List.map_cons, List.nodup_cons] at hnd
    simp only [dictGet] at h
    by_cases hk : k2 = k
    · subst hk
      rw [if_pos rfl] at h
      obtain rfl : v2 = v := by simpa using h
      show dictGet k2 (dictUpdate (dictSet k2 v2 c) rest) = some v2
      have hnone : dictGet k2 rest = none := dictGet_eq_none_of_not_mem k2 rest hnd.1
      rw [dictGet_dictUpdate_of_none k2 _ rest hnone]
      exact dictGet_dictSet_same _ _ _
    · rw [if_neg hk] at h
      show dictGet k (dictUpdate (dictSet k2 v2 c) rest) = some v
      exact ih (dictSet k2 v2 c) hnd.2 h

theorem dictGet_api_key_envMerged (env : EnvVars) (s : String)
    (hak : env.api_key = some s) (hs : s ≠ "") :
    dictGet "api_key" (envMerged env) = some (Json.str s) := by
  obtain ⟨ak, dm, rv⟩ := env
  simp only at hak
  subst hak
  cases dm with
  | none =>
    cases rv with
    | none => simp [envMerged, hs, dictGet_dictSet_same]
    | some r =>
      by_cases hr : r = ""
      · simp [envMerged, hs, hr, dictGet_dictSet_same]
      · simp [envMerged, hs, hr, dictGet_dictSet_same, dictGet_dictSet_other]
  | some d =>
    by_cases hd : d = ""
    · cases rv with
      | none => simp [envMerged, hs, hd, dictGet_dictSet_same]
      | some r =>
        by_cases hr : r = ""
        · simp [envMerged, hs, hd, hr, dictGet_dictSet_same]
        · simp [envMerged, hs, hd, hr, dictGet_dictSet_same, dictGet_dictSet_other]
    · cases rv with
      | none => simp [envMerged, hs, hd, dictGet_dictSet_same, dictGet_dictSet_other]
      | some r =>
        by_cases hr : r = ""
        · simp [envMerged, hs, hd, hr, dictGet_dictSet_same, dictGet_dictSet_other]
        · simp [envMerged, hs, hd, hr, dictGet_dictSet_same, dictGet_dictSet_other]

theorem dictGet_default_model_envMerged (env : EnvVars) (s : String)
    (hdm : env.default_model = some s) (hs : s ≠ "") :
    dictGet "default_model" (envMerged env) = some (Json.str s) := by
  obtain ⟨ak, dm, rv⟩ := env
  simp only at hdm
  subst hdm
  cases ak with
  | none =>
    cases rv with
    | none => simp [envMerged, hs, dictGet_dictSet_same]
    | some r =>
      by_cases hr : r = ""
      · simp [envMerged, hs, hr, dictGet_dictSet_same]
      · simp [envMerged, hs, hr, dictGet_dictSet_same, dictGet_dictSet_other]
  | some a =>
    by_cases ha : a = ""
    · cases rv with
      | none => simp [envMerged, hs, ha, dictGet_dictSet_same]
      | some r =>
        by_cases hr : r = ""
        · simp [envMerged, hs, ha, hr, dictGet_dictSet_same]
        · simp [envMerged, hs, ha, hr, dictGet_dictSet_same, dictGet_dictSet_other]
    · cases rv with
      | none => simp [envMerged, hs, ha, dictGet_dictSet_same, dictGet_dictSet_other]
      | some r =>
        by_cases hr : r = ""
        · simp [envMerged, hs, ha, hr, dictGet_dictSet_same, dictGet_dictSet_other]
        · simp [envMerged, hs, ha, hr, dictGet_dictSet_same, dictGet_dictSet_other]

theorem envMerged_falsy (env : EnvVars)
    (h1 : pyTruthy env.api_key = false) (h2 : pyTruthy env.default_model = false)
    (h3 : pyTruthy env.response_verbosity = false) :
    envMerged env = DEFAULT_CONFIG := by
  obtain ⟨ak, dm, rv⟩ := env
  cases ak <;> cases dm <;> cases rv <;> simp_all [pyTruthy, envMerged]

/-! ## Claims -/

/-- Claim C7: saving a conversation under a name and then loading it by
the same name returns the identical ordered message sequence — same
length, same order, each message's role and content preserved. -/
theorem c7_save_load_roundtrip (name : String) (msgs : List Message) (store : ConvStore) :
    load_conversation name (save_conversation name msgs store) = msgs := by
  simp [load_conversation, save_conversation, dictGet_dictSet_same]


/-! ## Dispatch helper -/

/-- An input line not recognized by the command chain falls through to
the ordinary message turn. -/
theorem sessionStep_eq_messageTurn (gw : GatewayOutcome) (inp : String) (s : SessionState)
    (h : isCommandInput inp = false) : sessionStep gw inp s = messageTurn gw inp s := by
  unfold isCommandInput at h
  simp only [Bool.or_eq_false_iff] at h
  obtain ⟨⟨⟨⟨⟨⟨h1, h2⟩, h3⟩, h4⟩, ⟨⟨⟨h5, h6⟩, h7⟩, h8⟩⟩, h9⟩, h10⟩ := h
  unfold sessionStep
  simp [h1, h2, h3, h4, h5, h6, h7, h8, h9, h10]

/-- Claim C4: from a freshly seeded conversation, one user turn "Hi"
answered with `{"choices":[{"message":{"content":"Hello!"}}]}` leaves
exactly three messages in order — system (per the verbosity lookup),
user("Hi"), assistant("Hello!") — and the conversation is persisted to
the store after the assistant turn. -/
theorem c4_happy_path_three_messages (v : Verbosity) :
    sessionStep (.ok helloResponse) "Hi" (startConversation v "conv" []) =
      .next { conversation := "conv",
              convMap := [("conv", [seedMessage v, ⟨"user", "Hi"⟩, ⟨"assistant", "Hello!"⟩])],
              store := [("conv", [seedMessage v, ⟨"user", "Hi"⟩, ⟨"assistant", "Hello!"⟩])],
              verbosity := v } := by
  cases v <;> decide

/-- Claim C3: when the gateway call of a user turn raises, the history
becomes the pre-call history plus exactly the just-appended user message
— no assistant message, no synthetic error message — and the loop
continues to await input. -/
theorem c3_gateway_error_keeps_user_only (s : SessionState) (msgs : List Message)
    (inp e : String)
    (hconv : dictGet s.conversation s.convMap = some msgs)
    (hcmd : isCommandInput inp = false) :
    sessionStep (.fail e) inp s =
      .next { s with convMap := dictSet s.conversation (msgs ++ [⟨"user", inp⟩]) s.convMap } := by
  rw [sessionStep_eq_messageTurn _ _ _ hcmd]
  unfold messageTurn
  rw [hconv]

/-- Witness for C3 at a concrete seeded session and a failing turn. -/
theorem c3_witness :
    sessionStep (GatewayOutcome.fail "API Error: bad key") "hello"
        (startConversation Verbosity.medium "a" []) =
      StepResult.next { conversation := "a",
                        convMap := [("a", [seedMessage Verbosity.medium, ⟨"user", "hello"⟩])],
                        store := [], verbosity := Verbosity.medium } := by
  have h := c3_gateway_error_keeps_user_only (startConversation Verbosity.medium "a" [])
    [seedMessage Verbosity.medium] "hello" "API Error: bad key" (by decide) (by decide)
  exact h.trans (by decide)

/-- Counterexample to claim C1 as stated: after `/clear`, the next user
turn appends the user message to the emptied history without re-seeding,
so the non-empty history of the active conversation no longer has a
`system` message at index 0. -/
theorem c1_counterexample :
    allHeadsSystem (runScript [("/clear", gatewayFailure), ("hi", gatewayFailure)]
      (startConversation Verbosity.medium "conv" [])) = false := by
  decide

/-- Counterexample to claim C2 as stated: `/vs` right after `/clear`
assigns to element 0 of an empty history, raising an uncaught
`IndexError` that terminates the loop. -/
theorem c2_counterexample :
    (sessionStep gatewayFailure "/vs"
      (sessionStep gatewayFailure "/clear"
        (startConversation Verbosity.medium "conv" [])).state).isCrash = true := by
  decide

/-- Counterexample to claim C6 as stated: after `/save b` renames the
active conversation to "b", the in-memory map still has no entry for
"b", so the next ordinary message turn raises an uncaught `KeyError`
instead of operating under the new name. -/
theorem c6_counterexample :
    (sessionStep (.ok helloResponse) "hello"
      (sessionStep gatewayFailure "/save b"
        (startConversation Verbosity.medium "conv" [])).state).isCrash = true := by
  decide

/-- Counterexample to claim C5 as stated: for a non-success status whose
body parses as a JSON object with neither an `error` nor a `message`
field, the raised error carries only the status-code text, not the
(non-empty) raw response body the claim's fallback chain prescribes. -/
theorem c5_counterexample :
    chat_completion_response 500 "\x7b\"foo\": 1\x7d" (some (Json.obj [("foo", Json.num 1)])) =
      Except.error "API Error: 500" ∧
    "API Error: 500" ≠ "API Error: " ++ "\x7b\"foo\": 1\x7d" := by
  constructor
  · rfl
  · decide


/-- Claim C1 (amended): the "index 0 is a system message" invariant holds
for every conversation after session start (given well-formed persisted
conversations) and is preserved by every loop operation other than
`/clear` — verbosity changes replace the system message in place, never
appending a duplicate.  After `/clear` the invariant can fail, because a
subsequent user turn appends to the emptied history without re-seeding
(see the counterexample). -/
theorem c1_amended_system_first_invariant (v : Verbosity) (name : String) (store : ConvStore)
    (script : List (String × GatewayOutcome))
    (hstore : (store.all fun p => goodHist p.2) = true)
    (hclear : ∀ p ∈ script, strLower p.1 ≠ "/clear") :
    allHeadsSystem (runScript script (startConversation v name store)) = true :=
  allHeadsSystem_of_strongInv _
    (strongInv_runScript script _ (strongInv_startConversation v name store hstore) hclear)

/-- Witness for the amended C1: a session that changes verbosity and then
sends a failing message turn keeps the system message at index 0. -/
theorem c1_witness :
    allHeadsSystem (runScript [("/vs", GatewayOutcome.fail "e"), ("hello", GatewayOutcome.fail "e")]
      (startConversation Verbosity.medium "a" [])) = true :=
  c1_amended_system_first_invariant Verbosity.medium "a" []
    [("/vs", GatewayOutcome.fail "e"), ("hello", GatewayOutcome.fail "e")]
    (by decide) (by decide)

/-- Claim C2 (amended): a loop cycle handles every input line without an
uncaught exception provided the active conversation is present in the
in-memory map with a non-empty history.  (Without that proviso the loop
can crash: `/vs` after `/clear` raises `IndexError`, and a message turn
after a `/save` rename raises `KeyError` — see the counterexample.) -/
theorem c2_amended_no_uncaught_exception (s : SessionState) (msgs : List Message)
    (inp : String) (gw : GatewayOutcome)
    (hconv : dictGet s.conversation s.convMap = some msgs) (hne : msgs ≠ []) :
    (sessionStep gw inp s).isCrash = false := by
  obtain ⟨m, rest, hm⟩ : ∃ m rest, msgs = m :: rest := by
    cases msgs with
    | nil => exact absurd rfl hne
    | cons m rest => exact ⟨m, rest, rfl⟩
  subst hm
  simp only [sessionStep, messageTurn, applyVerbosity]
  repeat' split
  all_goals simp_all [StepResult.isCrash]

/-- Witness for the amended C2 on a freshly seeded session. -/
theorem c2_witness :
    (sessionStep gatewayFailure "/vs" (startConversation Verbosity.medium "a" [])).isCrash = false :=
  c2_amended_no_uncaught_exception (startConversation Verbosity.medium "a" [])
    [seedMessage Verbosity.medium] "/vs" gatewayFailure (by decide) (by decide)


/-- Dispatch of the canonical verbosity command for each level. -/
theorem sessionStep_verbosityCommand (gw : GatewayOutcome) (lvl : Verbosity) (s : SessionState) :
    sessionStep gw (verbosityCommand lvl) s = applyVerbosity lvl s := by
  cases lvl <;> rfl

/-- Claim C9: on a conversation with a system message at index 0,
applying a verbosity command twice yields exactly the state of applying
it once — the same single system message at index 0 (replaced, never
duplicated) and the rest of the history unchanged. -/
theorem c9_verbosity_change_idempotent (s : SessionState) (lvl : Verbosity)
    (m : Message) (rest : List Message) (gw gw2 : GatewayOutcome)
    (hconv : dictGet s.conversation s.convMap = some (m :: rest))
    (_hsys : m.role = "system") :
    sessionStep gw (verbosityCommand lvl) s =
      .next { s with verbosity := lvl,
                     convMap := dictSet s.conversation (seedMessage lvl :: rest) s.convMap } ∧
    sessionStep gw2 (verbosityCommand lvl)
        { s with verbosity := lvl,
                 convMap := dictSet s.conversation (seedMessage lvl :: rest) s.convMap } =
      .next { s with verbosity := lvl,
                     convMap := dictSet s.conversation (seedMessage lvl :: rest) s.convMap } := by
  constructor
  · rw [sessionStep_verbosityCommand]
    unfold applyVerbosity
    simp only [hconv]
  · rw [sessionStep_verbosityCommand]
    unfold applyVerbosity
    simp only [dictGet_dictSet_same, dictSet_dictSet_same]

/-- Witness for C9 on a freshly seeded session switched to `short` twice. -/
theorem c9_witness :
    sessionStep gatewayFailure (verbosityCommand Verbosity.short)
        (startConversation Verbosity.medium "a" []) =
      StepResult.next { conversation := "a", convMap := [("a", [seedMessage Verbosity.short])],
                        store := [], verbosity := Verbosity.short } ∧
    sessionStep gatewayFailure (verbosityCommand Verbosity.short)
        { conversation := "a", convMap := [("a", [seedMessage Verbosity.short])],
          store := [], verbosity := Verbosity.short } =
      StepResult.next { conversation := "a", convMap := [("a", [seedMessage Verbosity.short])],
                        store := [], verbosity := Verbosity.short } := by
  have h := c9_verbosity_change_idempotent (startConversation Verbosity.medium "a" [])
    Verbosity.short (seedMessage Verbosity.medium) [] gatewayFailure gatewayFailure
    (by decide) (by decide)
  exact ⟨h.1.trans (by decide), h.2⟩

/-- Claim C6 (amended): `/save <name>` with a non-empty name persists the
current history under `<name>` (which then appears in `list()`) and
renames the active conversation to `<name>`; but the in-memory map is not
re-keyed, so when `<name>` has no in-memory entry the next ordinary
message turn raises an uncaught `KeyError` instead of operating under the
new name. -/
theorem c6_amended_save_renames (s : SessionState) (msgs : List Message) (inp nm : String)
    (gw : GatewayOutcome)
    (hconv : dictGet s.conversation s.convMap = some msgs)
    (hsw : strStartsWith (strLower inp) "/save " = true)
    (hnm : strTrim (strDrop inp 6) = nm)
    (hne : nm ≠ "") :
    sessionStep gw inp s =
      .next { s with store := save_conversation nm msgs s.store, conversation := nm } ∧
    load_conversation nm (save_conversation nm msgs s.store) = msgs ∧
    nm ∈ list_conversations (save_conversation nm msgs s.store) ∧
    (dictGet nm s.convMap = none → ∀ t gw2, isCommandInput t = false →
      (sessionStep gw2 t { s with store := save_conversation nm msgs s.store,
                                  conversation := nm }).isCrash = true) := by
  have h1 : (strLower inp == "/exit") = false := by
    cases hq : strLower inp == "/exit" with
    | false => rfl
    | true => rw [eq_of_beq hq] at hsw; exact absurd hsw (by decide)
  have h2 : (strLower inp == "/clear") = false := by
    cases hq : strLower inp == "/clear" with
    | false => rfl
    | true => rw [eq_of_beq hq] at hsw; exact absurd hsw (by decide)
  have h3 : (strLower inp == "/help") = false := by
    cases hq : strLower inp == "/help" with
    | false => rfl
    | true => rw [eq_of_beq hq] at hsw; exact absurd hsw (by decide)
  refine ⟨?_, ?_, ?_, ?_⟩
  · simp only [sessionStep, h1, h2, h3, hsw, hnm, hconv, hne, Bool.false_eq_true,
      if_false, if_true, ne_eq, not_false_eq_true]
  · simp [load_conversation, save_conversation, dictGet_dictSet_same]
  · simpa [list_conversations, save_conversation] using mem_fst_dictSet nm msgs s.store
  · intro h t gw2 hcmd
    rw [sessionStep_eq_messageTurn _ _ _ hcmd]
    simp only [messageTurn, h, StepResult.isCrash]

/-- Witness for the amended C6: saving a seeded session as "b" persists
it, lists it, renames the session, and the next turn indeed crashes. -/
theorem c6_witness :
    sessionStep gatewayFailure "/save b" (startConversation Verbosity.medium "a" []) =
      StepResult.next { conversation := "b", convMap := [("a", [seedMessage Verbosity.medium])],
                        store := [("b", [seedMessage Verbosity.medium])],
                        verbosity := Verbosity.medium } ∧
    "b" ∈ list_conversations [("b", [seedMessage Verbosity.medium])] ∧
    (sessionStep (GatewayOutcome.ok helloResponse) "hello"
        { conversation := "b", convMap := [("a", [seedMessage Verbosity.medium])],
          store := [("b", [seedMessage Verbosity.medium])],
          verbosity := Verbosity.medium }).isCrash = true := by
  have h := c6_amended_save_renames (startConversation Verbosity.medium "a" [])
    [seedMessage Verbosity.medium] "/save b" "b" gatewayFailure
    (by decide) (by decide) (by decide) (by decide)
  exact ⟨h.1.trans (by decide), h.2.2.1, h.2.2.2 (by decide) "hello" (GatewayOutcome.ok helloResponse) (by decide)⟩


/-- Claim C5 (amended): on success status 200 with a parseable body the
call returns the parsed body; on any other status it raises an error
whose text carries `error.message` when the parsed body is an object
whose `error` field is an object with a `message` field, else the
top-level `message` field; when the body fails to parse, the raw response
body if non-empty, else the status-code description `API Error: <status>`;
a parseable object body with neither field also yields the status-code
description (not the raw body — see the counterexample).  The embedding
consumes exactly one response: no retry is ever issued. -/
theorem c5_amended_response_contract (status : Nat) (text : String) (parsed : Option Json)
    (j : Json) (fields efields : List (String × Json)) (m : String) :
    (status = 200 → parsed = some j → chat_completion_response status text parsed = Except.ok j) ∧
    (status ≠ 200 → parsed = some (Json.obj fields) →
      dictGet "error" fields = some (Json.obj efields) →
      dictGet "message" efields = some (Json.str m) →
      chat_completion_response status text parsed = Except.error ("API Error: " ++ m)) ∧
    (status ≠ 200 → parsed = some (Json.obj fields) →
      dictGet "error" fields = none → dictGet "message" fields = some (Json.str m) →
      chat_completion_response status text parsed = Except.error ("API Error: " ++ m)) ∧
    (status ≠ 200 → parsed = none → text ≠ "" →
      chat_completion_response status text parsed = Except.error ("API Error: " ++ text)) ∧
    (status ≠ 200 → parsed = none → text = "" →
      chat_completion_response status text parsed = Except.error ("API Error: " ++ toString status)) ∧
    (status ≠ 200 → parsed = some (Json.obj fields) →
      dictGet "error" fields = none → dictGet "message" fields = none →
      chat_completion_response status text parsed = Except.error ("API Error: " ++ toString status)) := by
  refine ⟨?_, ?_, ?_, ?_, ?_, ?_⟩
  · intro h200 hp
    subst hp
    simp [chat_completion_response, h200]
  · intro hne hp he hm
    subst hp
    simp [chat_completion_response, tryErrorMsg, hne, he, hm, pyStr]
  · intro hne hp he hm
    subst hp
    simp [chat_completion_response, tryErrorMsg, hne, he, hm, pyStr]
  · intro hne hp ht
    subst hp
    simp [chat_completion_response, hne, ht]
  · intro hne hp ht
    subst hp
    simp [chat_completion_response, hne, ht]
  · intro hne hp he hm
    subst hp
    simp [chat_completion_response, tryErrorMsg, hne, he, hm]

/-- Witness for the amended C5 at the spec's 401 `bad key` envelope. -/
theorem c5_witness :
    chat_completion_response 401 "ignored"
        (some (Json.obj [("error", Json.obj [("message", Json.str "bad key")])])) =
      Except.error ("API Error: " ++ "bad key") := by
  have h := c5_amended_response_contract 401 "ignored"
    (some (Json.obj [("error", Json.obj [("message", Json.str "bad key")])]))
    Json.null [("error", Json.obj [("message", Json.str "bad key")])]
    [("message", Json.str "bad key")] "bad key"
  exact h.2.1 (by decide) rfl rfl rfl

/-- Claim C8: configuration load merges built-in defaults, then truthy
environment overrides, then the persisted file, each later source taking
priority (a key present in the file wins over the environment; a key
absent from the file keeps the defaults-plus-environment value; a truthy
environment variable wins over the default); a missing or unparsable
file yields the defaults-plus-environment merge without raising. -/
theorem c8_config_merge_priority (env : EnvVars) (kvs : ConfigDict) (k : String) (v : Json)
    (s : String) :
    ((kvs.map Prod.fst).Nodup → dictGet k kvs = some v →
      dictGet k (load_config env (FileState.parsed kvs)) = some v) ∧
    (dictGet k kvs = none →
      dictGet k (load_config env (FileState.parsed kvs)) = dictGet k (envMerged env)) ∧
    (env.api_key = some s → s ≠ "" → dictGet "api_key" (envMerged env) = some (Json.str s)) ∧
    (env.default_model = some s → s ≠ "" →
      dictGet "default_model" (envMerged env) = some (Json.str s)) ∧
    (pyTruthy env.api_key = false → pyTruthy env.default_model = false →
      pyTruthy env.response_verbosity = false → envMerged env = DEFAULT_CONFIG) ∧
    (load_config env FileState.missing = envMerged env) ∧
    (load_config env FileState.unparsable = envMerged env) := by
  refine ⟨?_, ?_, ?_, ?_, ?_, rfl, rfl⟩
  · intro hnd hsome
    exact dictGet_dictUpdate_of_some k v (envMerged env) kvs hnd hsome
  · intro hnone
    exact dictGet_dictUpdate_of_none k (envMerged env) kvs hnone
  · exact dictGet_api_key_envMerged env s
  · exact dictGet_default_model_envMerged env s
  · exact envMerged_falsy env

/-- Witness for C8: a file-provided api key beats the environment, an
untouched key keeps its environment value, and a missing file falls back
to the defaults-plus-environment merge. -/
theorem c8_witness :
    dictGet "api_key" (load_config ⟨some "envkey", none, none⟩
        (FileState.parsed [("api_key", Json.str "filekey")])) = some (Json.str "filekey") ∧
    dictGet "default_model" (load_config ⟨some "envkey", none, none⟩
        (FileState.parsed [("api_key", Json.str "filekey")])) =
      dictGet "default_model" (envMerged ⟨some "envkey", none, none⟩) ∧
    dictGet "api_key" (envMerged ⟨some "envkey", none, none⟩) = some (Json.str "envkey") ∧
    load_config ⟨some "envkey", none, none⟩ FileState.missing =
      envMerged ⟨some "envkey", none, none⟩ := by
  have h1 := c8_config_merge_priority ⟨some "envkey", none, none⟩
    [("api_key", Json.str "filekey")] "api_key" (Json.str "filekey") "envkey"
  have h2 := c8_config_merge_priority ⟨some "envkey", none, none⟩
    [("api_key", Json.str "filekey")] "default_model" (Json.str "filekey") "envkey"
  exact ⟨h1.1 (by decide) rfl, h2.2.1 rfl, h1.2.2.1 rfl (by decide), h1.2.2.2.2.2.1⟩

/-- Claim C10: `chat_completion` raises a `ValueError` before issuing any
HTTP request whenever the messages list is empty or the model identifier
is empty or `None`; with a non-empty model and non-empty messages the
checks pass and the request payload is `{model, messages, temperature,
max_tokens}` built from the arguments unchanged.  (The api-key check is
vacuous for clients built by the constructor, which rejects falsy keys.) -/
theorem c10_request_preconditions (api_key : String) (model : Option String)
    (messages : List Message) (temperature : Rat) (max_tokens : Int)
    (hkey : api_key ≠ "") :
    ((model.getD "" = "" ∨ messages = []) →
      ∃ msg, chat_completion_request api_key model messages temperature max_tokens =
        RequestStart.valueError msg) ∧
    (model.getD "" ≠ "" → messages ≠ [] →
      chat_completion_request api_key model messages temperature max_tokens =
        RequestStart.httpRequest ⟨model.getD "", messages, temperature, max_tokens⟩) := by
  constructor
  · intro h
    unfold chat_completion_request
    rw [if_neg hkey]
    rcases h with h | h
    · rw [if_pos h]
      exact ⟨_, rfl⟩
    · by_cases hm : model.getD "" = ""
      · rw [if_pos hm]
        exact ⟨_, rfl⟩
      · rw [if_neg hm, if_pos h]
        exact ⟨_, rfl⟩
  · intro hm hmsg
    unfold chat_completion_request
    rw [if_neg hkey, if_neg hm, if_neg hmsg]

/-- Witness for C10: an empty messages list is rejected before any HTTP
request, and a well-formed call produces the unchanged payload. -/
theorem c10_witness :
    (∃ msg, chat_completion_request "sk-or-key" (some "m") [] 1 100 =
      RequestStart.valueError msg) ∧
    chat_completion_request "sk-or-key" (some "m") [⟨"user", "Hi"⟩] 1 100 =
      RequestStart.httpRequest ⟨"m", [⟨"user", "Hi"⟩], 1, 100⟩ := by
  constructor
  · exact (c10_request_preconditions "sk-or-key" (some "m") [] 1 100 (by decide)).1 (Or.inr rfl)
  · exact (c10_request_preconditions "sk-or-key" (some "m") [⟨"user", "Hi"⟩] 1 100 (by decide)).2
      (by decide) (by decide)

end CliLlmChat
